import Mathlib

/-!
Shallow embedding of the data-access / view-synchronization layer of
`src/main.py` (Student Management System).

The persisted state is the sqlite table
`students(id INTEGER PRIMARY KEY, name TEXT, course TEXT, mobile TEXT)`.
All SQL in the program goes through `DatabaseConnection.query`
(src/main.py:25-36).  The five SQL statements issued by the dialogs
(src/main.py:150, 236, 283, 320, 376, 413) are embedded as pure functions
on the table state, which is kept as a list in rowid order — the order
`SELECT * FROM students` (no ORDER BY) yields.

The dialog-level callers (`add_student`, `update_student`,
`delete_student`, `search_student`, `load_data`) are embedded including
their Python-side validation, and the Qt table widget is embedded as a
`ViewState`: a list of rows of displayed cell texts plus the set of
selected row positions.
-/

namespace StudentMgmt

/-- One row of the `students` table.  `id` is the INTEGER PRIMARY KEY
(rowid); the three payload columns are TEXT. -/
structure StudentRecord where
  id : Nat
  name : String
  course : String
  mobile : String
deriving Repr, DecidableEq

/-- The persisted table, listed in rowid order (the order `SELECT *`
returns).  Creation always assigns a rowid larger than every existing
one, so append keeps the list in rowid order. -/
abbrev DB := List StudentRecord

/-- Largest id currently in the table (0 when empty). -/
def maxId (db : DB) : Nat :=
  db.foldr (fun r acc => max r.id acc) 0

/-- The rowid sqlite assigns to a new row when the INSERT omits `id`
(src/main.py:376 inserts only name, course, mobile): one larger than the
largest rowid currently in use, 1 for an empty table.  The column is
`INTEGER PRIMARY KEY` without AUTOINCREMENT, so this value can repeat an
id that was deleted earlier if the deleted id was the maximum. -/
def freshId (db : DB) : Nat :=
  maxId db + 1

/-- `INSERT INTO students (name, course, mobile) VALUES (?, ?, ?)`
(src/main.py:376-377): appends one row with a store-assigned id. -/
def createStudent (db : DB) (name course mobile : String) : DB :=
  db ++ [⟨freshId db, name, course, mobile⟩]

/-- `SELECT * FROM students` (src/main.py:150): every row, rowid order. -/
def readAll (db : DB) : DB :=
  db

/-- `SELECT * FROM students WHERE name = ?` (src/main.py:413): sqlite
compares TEXT with the default BINARY collation, i.e. exact,
case-sensitive string equality. -/
def readByName (db : DB) (s : String) : DB :=
  db.filter (fun r => r.name == s)

/-- `UPDATE students SET name = ?, course = ?, mobile = ? WHERE id = ?`
(src/main.py:283): replaces the three payload columns of every row whose
id matches; zero matching rows is not an error. -/
def updateStudent (db : DB) (sid : Nat) (name course mobile : String) : DB :=
  db.map (fun r => if r.id = sid then ⟨sid, name, course, mobile⟩ else r)

/-- `DELETE FROM students WHERE id = ?` (src/main.py:320): removes every
row whose id matches; zero matching rows is not an error. -/
def deleteStudent (db : DB) (sid : Nat) : DB :=
  db.filter (fun r => r.id != sid)

/-- Python `str.strip()` on the ASCII whitespace that can occur in the
line-edit inputs (space, tab, newline, carriage return, vertical tab,
form feed). -/
def pyIsSpace (ch : Char) : Bool :=
  ch == ' ' || ch == '\t' || ch == '\n' || ch == '\r' || ch == '\x0b' || ch == '\x0c'

/-- Python `s.strip()`: drop leading and trailing whitespace. -/
def pyStrip (s : String) : String :=
  String.mk (((s.data.dropWhile pyIsSpace).reverse.dropWhile pyIsSpace).reverse)

/-- `InsertDialog.add_student` (src/main.py:364-383): rejects the insert
iff `not name or not mobile` — Python string truthiness, i.e. iff either
string is exactly empty (no stripping on this path); otherwise passes
the raw texts to the INSERT. -/
def add_student (db : DB) (name course mobile : String) : DB :=
  if name = "" ∨ mobile = "" then db
  else createStudent db name course mobile

/-- `EditDialog.update_student` (src/main.py:275-291): rejects iff
`not name.strip() or not mobile.strip()`, i.e. iff either field is empty
after stripping; otherwise passes the raw (unstripped) texts to the
UPDATE. -/
def update_student (db : DB) (sid : Nat) (name course mobile : String) : DB :=
  if pyStrip name = "" ∨ pyStrip mobile = "" then db
  else updateStudent db sid name course mobile

/-- `DeleteDialog.delete_student` (src/main.py:317-327): no validation,
runs the DELETE directly. -/
def delete_student (db : DB) (sid : Nat) : DB :=
  deleteStudent db sid

/-- The Qt table widget: the displayed rows (each a list of four cell
texts: id, name, course, mobile) and the positions of selected rows. -/
structure ViewState where
  rows : List (List String)
  selected : List Nat
deriving Repr, DecidableEq

/-- The displayed row of one record (src/main.py:152-157: every column
value is rendered with `str(...)`). -/
def rowOfRecord (r : StudentRecord) : List String :=
  [toString r.id, r.name, r.course, r.mobile]

/-- `MainWindow.load_data` (src/main.py:148-157): `setRowCount(0)`
discards the entire previous snapshot (including any selection), then
every record from `SELECT * FROM students` is re-inserted in order. -/
def load_data (prev : ViewState) (db : DB) : ViewState :=
  { rows := (readAll db).map rowOfRecord, selected := [] }

/-- Qt case-insensitive string comparison folds ASCII case. -/
def qtFoldCase (s : String) : String :=
  String.mk (s.data.map Char.toLower)

/-- `Qt.MatchFlag.MatchFixedString` without `MatchCaseSensitive`:
whole-string comparison, case-insensitive. -/
def qtMatchFixedString (cell q : String) : Bool :=
  qtFoldCase cell == qtFoldCase q

/-- `QTableWidget.findItems(q, MatchFixedString)` scans every column of
every row; `search_student` then selects `item.row()` for each hit, so
the selected positions are the rows in which ANY cell matches. -/
def findMatchRows (rows : List (List String)) (q : String) : List Nat :=
  (List.range rows.length).filter (fun i => (rows.getD i []).any (fun c => qtMatchFixedString c q))

/-- `SearchDialog.search_student` (src/main.py:406-430): an empty query
is rejected before anything happens; otherwise the selection is cleared
and replaced by the rows holding a `findItems` hit (the rows themselves
are never touched). -/
def search_student (st : ViewState) (q : String) : ViewState :=
  if q = "" then st
  else { rows := st.rows, selected := findMatchRows st.rows q }

/-- Positions selected by the spec's `select_by_name`: modelled from the
spec's words (exact, case-sensitive equality on the `name` field, which
is displayed column 1) for comparison with `search_student`. -/
def selectByNameSpec (rows : List (List String)) (q : String) : List Nat :=
  (List.range rows.length).filter (fun i => (rows.getD i []).get? 1 == some q)

/-- Outcome of running one SQL statement in sqlite: either a value or an
`sqlite3.Error` carrying a message. -/
inductive SqlOutcome (α : Type) where
  | success (val : α)
  | sqliteError (msg : String)

/-- The single error kind the store raises (src/main.py:13-15). -/
structure DatabaseError where
  msg : String
deriving Repr, DecidableEq

/-- `DatabaseConnection.query` (src/main.py:25-36): the result boundary.
A successful statement's value is returned unchanged; any
`sqlite3.Error` is caught and re-raised as
`DatabaseError(f"Database Error: {error}")`.  The `Except` codomain has
only `DatabaseError` as its error type: no other error kind escapes. -/
def query {α : Type} : SqlOutcome α → Except DatabaseError α
  | SqlOutcome.success v => Except.ok v
  | SqlOutcome.sqliteError e => Except.error ⟨"Database Error: " ++ e⟩

/-- Connection-level events of one `DatabaseConnection.query` call. -/
inductive DbEvent where
  | connect
  | execute
  | fetchRows
  | commitTxn
  | rollbackTxn
  | close
deriving Repr, DecidableEq

/-- Event trace of one `DatabaseConnection.query` call
(src/main.py:25-36), by whether the call fetches and whether the
statement raises.  `with sqlite3.connect(...)` opens the connection; on
normal exit the context manager commits the open transaction and on an
exception it rolls the transaction back — the Python sqlite3 context
manager does NOT close the connection (documented behavior; the object
is reclaimed later by the interpreter).  The non-fetch path also commits
explicitly (src/main.py:33) before the context exit commits again. -/
def query_events (fetch sqlFails : Bool) : List DbEvent :=
  [DbEvent.connect, DbEvent.execute] ++
    (if sqlFails then [DbEvent.rollbackTxn]
     else if fetch then [DbEvent.fetchRows, DbEvent.commitTxn]
     else [DbEvent.commitTxn, DbEvent.commitTxn])

/-- One store-level mutation, for reasoning about operation sequences. -/
inductive StoreOp where
  | createOp (name course mobile : String)
  | updateOp (sid : Nat) (name course mobile : String)
  | deleteOp (sid : Nat)
deriving Repr, DecidableEq

/-- Apply one store operation to the table. -/
def applyOp (db : DB) : StoreOp → DB
  | StoreOp.createOp n c m => createStudent db n c m
  | StoreOp.updateOp i n c m => updateStudent db i n c m
  | StoreOp.deleteOp i => deleteStudent db i

/-- Run a sequence of store operations. -/
def runOps (db : DB) : List StoreOp → DB
  | [] => db
  | op :: rest => runOps (applyOp db op) rest

/-- The ids the store assigns at each create during a run, in order. -/
def assignedIds : DB → List StoreOp → List Nat
  | _, [] => []
  | db, op :: rest =>
      (match op with
       | StoreOp.createOp _ _ _ => [freshId db]
       | _ => []) ++ assignedIds (applyOp db op) rest

/-! ## Helper lemmas -/

theorem maxId_cons (r : StudentRecord) (db : DB) :
    maxId (r :: db) = max r.id (maxId db) :=
  rfl

theorem id_le_maxId {db : DB} {r : StudentRecord} (h : r ∈ db) :
    r.id ≤ maxId db := by
  induction db with
  | nil => cases h
  | cons x xs ih =>
    rcases List.mem_cons.mp h with h | h
    · subst h; exact le_max_left _ _
    · exact le_trans (ih h) (le_max_right _ _)

theorem freshId_not_mem (db : DB) :
    freshId db ∉ db.map StudentRecord.id := by
  intro hmem
  obtain ⟨r, hr, hid⟩ := List.mem_map.mp hmem
  have hle := id_le_maxId hr
  rw [hid] at hle
  exact absurd hle (by simp [freshId])

theorem update_absent (db : DB) (sid : Nat) (n c m : String)
    (h : sid ∉ db.map StudentRecord.id) :
    updateStudent db sid n c m = db := by
  unfold updateStudent
  conv_rhs => rw [← List.map_id db]
  apply List.map_congr_left
  intro r hr
  have hne : r.id ≠ sid := fun e => h (List.mem_map.mpr ⟨r, hr, e⟩)
  simp [hne]

theorem delete_absent (db : DB) (sid : Nat)
    (h : sid ∉ db.map StudentRecord.id) :
    deleteStudent db sid = db := by
  unfold deleteStudent
  rw [List.filter_eq_self]
  intro r hr
  have hne : r.id ≠ sid := fun e => h (List.mem_map.mpr ⟨r, hr, e⟩)
  simpa using hne

theorem updateStudent_map_id (db : DB) (sid : Nat) (n c m : String) :
    (updateStudent db sid n c m).map StudentRecord.id = db.map StudentRecord.id := by
  unfold updateStudent
  rw [List.map_map]
  apply List.map_congr_left
  intro r hr
  by_cases h : r.id = sid <;> simp [h]

theorem update_decomp (db : DB) (sid : Nat) (n c m : String)
    (hmem : sid ∈ db.map StudentRecord.id)
    (hnd : (db.map StudentRecord.id).Nodup) :
    ∃ pre r post, db = pre ++ r :: post ∧ r.id = sid ∧
      updateStudent db sid n c m = pre ++ StudentRecord.mk sid n c m :: post := by
  induction db with
  | nil => cases hmem
  | cons x xs ih =>
    rw [List.map_cons, List.nodup_cons] at hnd
    rcases List.mem_cons.mp hmem with h | h
    · refine ⟨[], x, xs, rfl, h.symm, ?_⟩
      have hxs : updateStudent xs sid n c m = xs :=
        update_absent xs sid n c m (h ▸ hnd.1)
      simp only [updateStudent] at hxs ⊢
      rw [List.map_cons, if_pos h.symm, hxs, List.nil_append]
    · obtain ⟨pre, r, post, hdb, hid, hupd⟩ := ih h hnd.2
      refine ⟨x :: pre, r, post, by rw [hdb, List.cons_append], hid, ?_⟩
      have hxne : x.id ≠ sid := fun e => hnd.1 (e ▸ h)
      simp only [updateStudent, List.map_cons] at hupd ⊢
      rw [if_neg hxne, hupd, List.cons_append]

theorem mem_readByName (db : DB) (s : String) (r : StudentRecord) :
    r ∈ readByName db s ↔ r ∈ db ∧ r.name = s := by
  simp [readByName, List.mem_filter]

theorem mem_findMatchRows (rows : List (List String)) (q : String) (i : Nat) :
    i ∈ findMatchRows rows q ↔
      i < rows.length ∧ ∃ c ∈ rows.getD i [], qtFoldCase c = qtFoldCase q := by
  simp [findMatchRows, List.mem_filter, List.mem_range, List.any_eq_true,
    qtMatchFixedString]

theorem get?_map_rowOfRecord (db : DB) (i : Nat) :
    (db.map rowOfRecord).get? i = (db.get? i).map rowOfRecord := by
  induction db generalizing i with
  | nil => simp
  | cons x xs ih => cases i <;> simp [ih]

/-! ## Claim theorems -/

/-- Claim C1, counterexample: on a snapshot holding the single row
`["1", "ann", "Math", "55"]`, searching for `"Ann"` selects row 0 —
`findItems` with `MatchFixedString` compares case-insensitively — while
the spec's exact-name-match selection selects nothing, so the two
disagree. -/
theorem select_by_name_cx :
    (search_student (ViewState.mk [["1", "ann", "Math", "55"]] []) "Ann").selected = [0] ∧
    selectByNameSpec [["1", "ann", "Math", "55"]] "Ann" = [] ∧
    (search_student (ViewState.mk [["1", "ann", "Math", "55"]] []) "Ann").selected ≠
      selectByNameSpec [["1", "ann", "Math", "55"]] "Ann" := by
  decide

/-- Claim C1 (amended): `read_by_name` is exact, case-sensitive match on
the `name` field, as claimed; but `select_by_name` (`search_student`)
selects the positions of the rows in which ANY displayed cell (id, name,
course, or mobile) equals the query as a whole string under
case-insensitive comparison — still no substring matching, but neither
case-sensitive nor restricted to the name field. -/
theorem search_semantics (db : DB) (st : ViewState) (s q : String) (hq : q ≠ "") :
    (∀ r, r ∈ readByName db s ↔ r ∈ db ∧ r.name = s) ∧
    (∀ i, i ∈ (search_student st q).selected ↔
      i < st.rows.length ∧ ∃ c ∈ st.rows.getD i [], qtFoldCase c = qtFoldCase q) := by
  refine ⟨mem_readByName db s, fun i => ?_⟩
  unfold search_student
  rw [if_neg hq]
  exact mem_findMatchRows st.rows q i

/-- Claim C1, witness for the amended theorem at a concrete snapshot. -/
theorem search_semantics_witness :
    ("Ann" : String) ≠ "" ∧
    ((∀ r, r ∈ readByName [StudentRecord.mk 1 "Ann" "Math" "55"] "Ann" ↔
        r ∈ [StudentRecord.mk 1 "Ann" "Math" "55"] ∧ r.name = "Ann") ∧
     (∀ i, i ∈ (search_student (ViewState.mk [["1", "ann", "Math", "55"]] []) "Ann").selected ↔
        i < (ViewState.mk [["1", "ann", "Math", "55"]] []).rows.length ∧
          ∃ c ∈ (ViewState.mk [["1", "ann", "Math", "55"]] []).rows.getD i [],
            qtFoldCase c = qtFoldCase "Ann")) :=
  ⟨by decide,
   search_semantics [StudentRecord.mk 1 "Ann" "Math" "55"]
     (ViewState.mk [["1", "ann", "Math", "55"]] []) "Ann" "Ann" (by decide)⟩

/-- Claim C2: `UPDATE` and `DELETE` on an id absent from the table leave
the table exactly unchanged; in the embedding both statements are total
functions (affecting zero rows is not an sqlite error), so no error is
raised by the store. -/
theorem absent_id_noop (db : DB) (sid : Nat) (n c m : String)
    (h : sid ∉ db.map StudentRecord.id) :
    updateStudent db sid n c m = db ∧ deleteStudent db sid = db :=
  ⟨update_absent db sid n c m h, delete_absent db sid h⟩

/-- Claim C2, witness: updating/deleting id 2 in a table holding only
id 1 changes nothing. -/
theorem absent_id_noop_witness :
    (2 ∉ [StudentRecord.mk 1 "Ann" "Math" "111"].map StudentRecord.id) ∧
    (updateStudent [StudentRecord.mk 1 "Ann" "Math" "111"] 2 "Bob" "Biology" "9" =
        [StudentRecord.mk 1 "Ann" "Math" "111"] ∧
      deleteStudent [StudentRecord.mk 1 "Ann" "Math" "111"] 2 =
        [StudentRecord.mk 1 "Ann" "Math" "111"]) :=
  ⟨by decide, absent_id_noop [StudentRecord.mk 1 "Ann" "Math" "111"] 2 "Bob" "Biology" "9" (by decide)⟩

/-- Claim C3, counterexample: the name `" "` is empty after trimming,
yet `add_student` inserts a record for it — `InsertDialog.add_student`
checks Python truthiness (`not name`), not `name.strip()`, so the
validation claimed to happen before the store is reached does not. -/
theorem validation_cx :
    pyStrip " " = "" ∧
    add_student [] " " "Math" "555" = [StudentRecord.mk 1 " " "Math" "555"] := by
  decide

/-- Claim C3 (amended): `update_student` rejects, without reaching the
store, every input whose name or mobile is empty after trimming; but
`add_student` rejects only inputs whose name or mobile is exactly the
empty string, so a whitespace-only name or mobile passes the create
validation and is inserted. -/
theorem validation_amended (db : DB) (sid : Nat) (n c m : String) :
    (pyStrip n = "" ∨ pyStrip m = "" → update_student db sid n c m = db) ∧
    (n = "" ∨ m = "" → add_student db n c m = db) ∧
    (n ≠ "" → m ≠ "" → add_student db n c m = createStudent db n c m) := by
  refine ⟨fun h => ?_, fun h => ?_, fun hn hm => ?_⟩
  · unfold update_student; rw [if_pos h]
  · unfold add_student; rw [if_pos h]
  · unfold add_student; rw [if_neg (not_or.mpr ⟨hn, hm⟩)]

/-- Claim C3, witness for the amended theorem: a trim-empty mobile
blocks the update; an empty name blocks the insert; a whitespace-only
name reaches the store. -/
theorem validation_amended_witness :
    update_student [] 1 " x " "Math" " " = [] ∧
    add_student [] "" "Math" "5" = [] ∧
    add_student [] " " "Math" "5" = createStudent [] " " "Math" "5" :=
  ⟨(validation_amended [] 1 " x " "Math" " ").1 (Or.inr (by decide)),
   (validation_amended [] 1 "" "Math" "5").2.1 (Or.inl rfl),
   (validation_amended [] 1 " " "Math" "5").2.2 (by decide) (by decide)⟩

/-- Claim C4: for valid input (non-empty name and mobile), the insert
appends exactly one record carrying the given field values, with an id
distinct from every id already in the table. -/
theorem create_roundtrip (db : DB) (n c m : String) (hn : n ≠ "") (hm : m ≠ "") :
    readAll (add_student db n c m) =
      readAll db ++ [StudentRecord.mk (freshId db) n c m] ∧
    freshId db ∉ (readAll db).map StudentRecord.id := by
  constructor
  · unfold add_student
    rw [if_neg (not_or.mpr ⟨hn, hm⟩)]
    rfl
  · exact freshId_not_mem db

/-- Claim C4, witness: inserting into the empty table yields exactly the
new record with id 1. -/
theorem create_roundtrip_witness :
    ("Ann" : String) ≠ "" ∧
    (readAll (add_student [] "Ann" "Math" "555-0100") =
        readAll ([] : DB) ++ [StudentRecord.mk (freshId ([] : DB)) "Ann" "Math" "555-0100"] ∧
      freshId ([] : DB) ∉ (readAll ([] : DB)).map StudentRecord.id) :=
  ⟨by decide, create_roundtrip [] "Ann" "Math" "555-0100" (by decide) (by decide)⟩

/-- Claim C5: every statement runs through `DatabaseConnection.query`,
whose result is either the statement's value unchanged, or — for any
underlying sqlite fault — a `DatabaseError` whose message wraps the
underlying message; the `Except DatabaseError` codomain admits no other
error kind. -/
theorem uniform_failure (α : Type) (o : SqlOutcome α) :
    (∃ v, o = SqlOutcome.success v ∧ query o = Except.ok v) ∨
    (∃ e, o = SqlOutcome.sqliteError e ∧
      query o = Except.error (DatabaseError.mk ("Database Error: " ++ e))) := by
  cases o with
  | success v => exact Or.inl ⟨v, rfl, rfl⟩
  | sqliteError e => exact Or.inr ⟨e, rfl, rfl⟩

/-- Claim C6, counterexample: with `id INTEGER PRIMARY KEY` and the
id-omitting INSERT, sqlite assigns max(id)+1, so after creating a record
(id 1) and deleting it, the next create assigns id 1 again — the id
sequence assigned along this run is `[1, 1]`, not duplicate-free. -/
theorem id_reuse_cx :
    assignedIds [] [StoreOp.createOp "Ann" "Math" "555-0100",
        StoreOp.deleteOp 1, StoreOp.createOp "Bob" "Math" "555-0101"] = [1, 1] ∧
    ¬ (assignedIds [] [StoreOp.createOp "Ann" "Math" "555-0100",
        StoreOp.deleteOp 1, StoreOp.createOp "Bob" "Math" "555-0101"]).Nodup := by
  decide

/-- Claim C6 (amended): no update ever changes the id of any record, and
each newly assigned id is distinct from every id present at creation
time; but because the key is INTEGER PRIMARY KEY without AUTOINCREMENT,
deleting the record holding the largest id lets that id be assigned
again to a later-created record. -/
theorem id_stability_amended (db : DB) (sid : Nat) (n c m : String) :
    (updateStudent db sid n c m).map StudentRecord.id = db.map StudentRecord.id ∧
    freshId db ∉ db.map StudentRecord.id :=
  ⟨updateStudent_map_id db sid n c m, freshId_not_mem db⟩

/-- Claim C7: updating an existing id (ids are unique under the PRIMARY
KEY constraint, hence the `Nodup` hypothesis) rewrites exactly the row
holding that id to the new field values, keeping its id and leaving the
surrounding rows — the same `pre` and `post` lists — untouched. -/
theorem update_frame (db : DB) (sid : Nat) (n c m : String)
    (hmem : sid ∈ (readAll db).map StudentRecord.id)
    (hnd : ((readAll db).map StudentRecord.id).Nodup) :
    ∃ pre r post, readAll db = pre ++ r :: post ∧ r.id = sid ∧
      readAll (updateStudent db sid n c m) =
        pre ++ StudentRecord.mk sid n c m :: post :=
  update_decomp db sid n c m hmem hnd

/-- Claim C7, witness on a two-record table. -/
theorem update_frame_witness :
    (1 ∈ (readAll [StudentRecord.mk 1 "Ann" "Math" "111",
        StudentRecord.mk 2 "Bob" "Math" "222"]).map StudentRecord.id) ∧
    (∃ pre r post,
      readAll [StudentRecord.mk 1 "Ann" "Math" "111",
        StudentRecord.mk 2 "Bob" "Math" "222"] = pre ++ r :: post ∧
      r.id = 1 ∧
      readAll (updateStudent [StudentRecord.mk 1 "Ann" "Math" "111",
          StudentRecord.mk 2 "Bob" "Math" "222"] 1 "Zed" "Biology" "999") =
        pre ++ StudentRecord.mk 1 "Zed" "Biology" "999" :: post) :=
  ⟨by decide,
   update_frame [StudentRecord.mk 1 "Ann" "Math" "111",
     StudentRecord.mk 2 "Bob" "Math" "222"] 1 "Zed" "Biology" "999"
     (by decide) (by decide)⟩

/-- Claim C8: after `load_data` the snapshot has exactly one row per
persisted record, in store order, each row rendering that record's
fields; the result does not depend on the previous snapshot (full
replacement, nothing left over); and `search_student` never adds,
removes, or hides rows. -/
theorem snapshot_correspondence (prev prev2 st : ViewState) (db : DB) (q : String) :
    (load_data prev db).rows.length = db.length ∧
    (∀ i, (load_data prev db).rows.get? i = (db.get? i).map rowOfRecord) ∧
    load_data prev db = load_data prev2 db ∧
    (search_student st q).rows = st.rows := by
  refine ⟨by simp [load_data, readAll], fun i => get?_map_rowOfRecord db i, rfl, ?_⟩
  by_cases h : q = "" <;> simp [search_student, h]

/-- Claim C9, counterexample: the success path of a fetching
`DatabaseConnection.query` call emits no close/release event — Python's
`with sqlite3.connect(...)` commits the transaction on exit but does not
close the connection, so the connection is not released before the call
returns. -/
theorem connection_not_closed_cx :
    DbEvent.close ∉ query_events true false := by
  decide

/-- Claim C9 (amended): every operation opens a fresh connection at the
start of the call (exactly one connect per call, so none is shared
across operations) and finalizes its transaction — commit on success,
rollback on error — before returning; but the operation never closes
the connection object itself, which is left to the interpreter to
reclaim. -/
theorem connection_discipline_amended (fetch sqlFails : Bool) :
    (query_events fetch sqlFails).head? = some DbEvent.connect ∧
    (query_events fetch sqlFails).count DbEvent.connect = 1 ∧
    ((query_events fetch sqlFails).getLast? = some DbEvent.commitTxn ∨
      (query_events fetch sqlFails).getLast? = some DbEvent.rollbackTxn) ∧
    DbEvent.close ∉ query_events fetch sqlFails := by
  cases fetch <;> cases sqlFails <;> decide

/-- Claim C10: the insert and the update pass the entered strings to the
store verbatim — the trimming in `update_student` guards only the
validation check, and `add_student` never trims — so a name stored with
surrounding whitespace is not returned by an exact-match search for its
trimmed form. -/
theorem verbatim_storage (db : DB) (sid : Nat) (n c m : String)
    (hn : n ≠ "") (hm : m ≠ "")
    (hsn : pyStrip n ≠ "") (hsm : pyStrip m ≠ "") (ht : pyStrip n ≠ n) :
    add_student db n c m = readAll db ++ [StudentRecord.mk (freshId db) n c m] ∧
    update_student db sid n c m = updateStudent db sid n c m ∧
    StudentRecord.mk (freshId db) n c m ∉
      readByName (add_student db n c m) (pyStrip n) := by
  refine ⟨?_, ?_, ?_⟩
  · unfold add_student
    rw [if_neg (not_or.mpr ⟨hn, hm⟩)]
    rfl
  · unfold update_student
    rw [if_neg (not_or.mpr ⟨hsn, hsm⟩)]
  · intro hmem
    exact ht ((mem_readByName _ _ _).mp hmem).2.symm

/-- Claim C10, witness: the name `" Ann"` is stored with its leading
space and is invisible to an exact search for `"Ann"`. -/
theorem verbatim_storage_witness :
    pyStrip " Ann" ≠ " Ann" ∧
    (add_student [] " Ann" "Math" "555" =
        readAll ([] : DB) ++ [StudentRecord.mk (freshId ([] : DB)) " Ann" "Math" "555"] ∧
      update_student [] 1 " Ann" "Math" "555" = updateStudent [] 1 " Ann" "Math" "555" ∧
      StudentRecord.mk (freshId ([] : DB)) " Ann" "Math" "555" ∉
        readByName (add_student [] " Ann" "Math" "555") (pyStrip " Ann")) :=
  ⟨by decide,
   verbatim_storage [] 1 " Ann" "Math" "555"
     (by decide) (by decide) (by decide) (by decide) (by decide)⟩

end StudentMgmt
